import Mathlib

/-!
Verification development for the yoga-pose catalogue client.

The TypeScript sources are shallowly embedded as executable Lean
definitions:

* JavaScript strings are modelled as Lean `String`, with the string
  primitives the code uses (`toLowerCase`, `includes`, `replace`,
  `split`, `localeCompare`, truthiness, `||` defaulting) re-implemented
  on `List Char` so that every definition reduces inside the kernel;
* the remote HTTP server is an environment parameter: a function from
  the attempt number to the outcome of that `fetch` call;
* classes become state records, methods become functions from the state
  (plus environment inputs) to the new state, the returned value and the
  number of remote requests issued.

Sections below follow the source files:
`LocalDataAdapter` (src/unnamed/part_001), `FilterManager`
(src/src/services/filter.ts), the retrying `ApiService`
(src/src/services/apiService.ts), the facade `ApiService` with local
fallback (src/unnamed/part_000), and `YogaPosesApp` pagination
(src/src/services/localData.ts, second variant).
-/

/-! ## JavaScript string and array primitives -/

/-- Lowercasing of a character list; model of `String.prototype.toLowerCase`. -/
def lowerChars (s : List Char) : List Char := s.map Char.toLower

/-- Model of `String.prototype.includes`: `sub` occurs contiguously in `s`. -/
def strIncludes (s sub : List Char) : Bool := decide (sub <:+: s)

/-- Lexicographic comparison of character lists by code point: the model of
`a.localeCompare(b) <= 0` used for the sort comparators. -/
def lexLe : List Char → List Char → Bool
  | [], _ => true
  | _ :: _, [] => false
  | c :: cs, d :: ds => if c = d then lexLe cs ds else decide (c < d)

/-- JavaScript truthiness of a possibly-absent string: `undefined` and `""`
are falsy. -/
def optTruthy : Option String → Bool
  | none => false
  | some s => decide (s ≠ "")

/-- JavaScript `a || b` on possibly-absent strings: keep `a` when truthy. -/
def jsOrOpt (a b : Option String) : Option String :=
  if optTruthy a then a else b

/-- JavaScript `a || d` where `d` is a (truthy) string literal default. -/
def jsOr (a : Option String) (d : String) : String :=
  match a with
  | some s => if s ≠ "" then s else d
  | none => d

/-- JavaScript `a || d` on numbers: `undefined` and `0` are falsy. -/
def jsOrNat (a : Option Nat) (d : Nat) : Nat :=
  match a with
  | some n => if n = 0 then d else n
  | none => d

/-- Model of `String.prototype.replace(pat, "")` with a string pattern:
remove the first occurrence of `pat`, if any. -/
def replaceFirst : List Char → List Char → List Char
  | [], _ => []
  | c :: cs, pat =>
    if pat <+: (c :: cs) then (c :: cs).drop pat.length
    else c :: replaceFirst cs pat

/-- Model of `String.prototype.split(sep)` for a one-character separator. -/
def splitOnChar (sep : Char) : List Char → List (List Char)
  | [] => [[]]
  | c :: cs =>
    let rest := splitOnChar sep cs
    if c = sep then [] :: rest else (c :: rest.headD []) :: rest.tail

/-- Model of `[...new Set(l)]`: deduplicate keeping first occurrences in
insertion order. -/
def dedupFirst {α : Type} [DecidableEq α] : List α → List α
  | [] => []
  | a :: l => a :: dedupFirst (l.filter (· ≠ a))
termination_by l => l.length
decreasing_by simpa using Nat.lt_succ_of_le (List.length_filter_le _ _)

/-- Model of `.filter(Boolean)` applied to a list of possibly-absent strings. -/
def filterTruthy (l : List (Option String)) : List String :=
  l.filterMap fun o => if optTruthy o then o else none

/-- Model of `String.prototype.startsWith`. -/
def strStartsWith (s pre : String) : Bool := decide (pre.data <+: s.data)

/-! ## Data model (src/unnamed/part_002: src/types/index.ts) -/

/-- `QueryParams` (types/index.ts): request descriptor; every field optional. -/
structure QueryParams where
  page : Option Nat := none
  limit : Option Nat := none
  search : Option String := none
  category : Option String := none
  sort : Option String := none
  order : Option String := none
deriving DecidableEq

/-- Pagination metadata of an `ApiResponse` (types/index.ts). -/
structure Pagination where
  page : Nat
  limit : Nat
  total : Nat
deriving DecidableEq

/-- `YogaPose` (types/index.ts): the canonical catalogue entry. -/
structure YogaPose where
  id : Nat
  title : String
  description : String
  category : String
  imageUrl : String
  videoUrl : String
  level : Option String := none
  benefits : Option String := none
  keys : Option String := none
  cautions : Option String := none
  tags : Option (List String) := none
deriving DecidableEq

/-- `ApiResponse<YogaPose>` (types/index.ts): response envelope. -/
structure ApiResponse where
  items : List YogaPose
  pagination : Pagination
deriving DecidableEq

/-! ## Local Fallback Store: LocalDataAdapter (src/unnamed/part_001) -/

/-- One record of the bundled `post.js` dataset; every field may be absent. -/
structure RawItem where
  pose : Option String := none
  title : Option String := none
  description : Option String := none
  benefits : Option String := none
  keys : Option String := none
  cautions : Option String := none
  level : Option String := none
  category : Option String := none
  imageUrl : Option String := none
  videoUrl : Option String := none
  tags : Option (List String) := none
deriving DecidableEq

/-- `LocalDataAdapter.convertToApiFormat` (part_001 lines 43-57): convert a
raw record at array position `index` into the canonical `YogaPose` shape. -/
def convertToApiFormat (item : RawItem) (index : Nat) : YogaPose :=
  { id := index + 1
    title := jsOr (jsOrOpt (item.pose.map fun s =>
      String.mk (replaceFirst s.data "Pose : ".data)) item.title) "未知動作"
    description := jsOr (jsOrOpt item.benefits item.description) "暫無描述"
    category := jsOr item.category "未分類"
    imageUrl := jsOr item.imageUrl ""
    videoUrl := jsOr item.videoUrl ""
    level := some (jsOr (item.level.map fun s =>
      String.mk (replaceFirst s.data "Level : ".data)) "未知")
    benefits := some (jsOr item.benefits "暫無好處說明")
    keys := some (jsOr item.keys "暫無要點")
    cautions := some (jsOr item.cautions "暫無注意事項")
    tags := some (item.tags.getD []) }

/-- One disjunct of the search predicate: the field exists and its lowercased
text contains the (already lowercased) search term. -/
def optLowerIncludes (field : Option String) (term : List Char) : Bool :=
  match field with
  | some s => strIncludes (lowerChars s.data) term
  | none => false

/-- Search predicate of `LocalDataAdapter.getYogaPoses` (part_001 lines
80-87): any of pose / level / benefits / keys / category / some tag contains
the term, case-insensitively. -/
def matchesSearch (term : List Char) (item : RawItem) : Bool :=
  optLowerIncludes item.pose term ||
  optLowerIncludes item.level term ||
  optLowerIncludes item.benefits term ||
  optLowerIncludes item.keys term ||
  optLowerIncludes item.category term ||
  (match item.tags with
   | some tags => tags.any fun tag => strIncludes (lowerChars tag.data) term
   | none => false)

/-- Sort key for field "title" (part_001 lines 103-104):
`(a.pose || a.title || "").toLowerCase()`. -/
def rawTitleKey (a : RawItem) : List Char :=
  lowerChars (jsOr (jsOrOpt a.pose a.title) "").data

/-- Sort key for field "category" (part_001 lines 107-108):
`(a.category || "").toLowerCase()`. -/
def rawCategoryKey (a : RawItem) : List Char :=
  lowerChars (jsOr a.category "").data

/-- Comparator of the JavaScript sort, as the "comes not after" Boolean
relation fed to a stable sort: ascending by `key` unless `order` is exactly
"desc", in which case the two values are swapped before comparing. -/
def keyLe {α : Type} (key : α → List Char) (order : Option String)
    (a b : α) : Bool :=
  if order = some "desc" then lexLe (key b) (key a) else lexLe (key a) (key b)

/-- Sort step of `LocalDataAdapter.getYogaPoses` (part_001 lines 96-120):
`filteredItems.sort(comparator)` runs only when `params.sort` is truthy; for
a field other than "title" / "category" the comparator returns 0 everywhere,
so the (stable) sort leaves the array unchanged. -/
def sortRawItems (params : QueryParams) (l : List RawItem) : List RawItem :=
  if optTruthy params.sort then
    if params.sort = some "title" then
      l.mergeSort (keyLe rawTitleKey params.order)
    else if params.sort = some "category" then
      l.mergeSort (keyLe rawCategoryKey params.order)
    else l
  else l

/-- `LocalDataAdapter.getYogaPoses` (part_001 lines 62-142): search filter,
category filter, sort, pagination slice, then conversion to the API shape.
`localItems` is the bundled dataset the adapter loaded from `post.js`. -/
def getYogaPoses (localItems : List RawItem) (params : QueryParams) :
    ApiResponse :=
  let filtered1 :=
    if optTruthy params.search then
      localItems.filter
        (matchesSearch (lowerChars (params.search.getD "").data))
    else localItems
  let filtered2 :=
    if optTruthy params.category then
      filtered1.filter fun item => item.category = params.category
    else filtered1
  let sorted := sortRawItems params filtered2
  let page := jsOrNat params.page 1
  let limit := jsOrNat params.limit 3
  let startIndex := (page - 1) * limit
  let paginatedItems := (sorted.drop startIndex).take limit
  let convertedItems := paginatedItems.mapIdx fun index item =>
    convertToApiFormat item (startIndex + index)
  { items := convertedItems
    pagination := { page := page, limit := limit, total := sorted.length } }

/-- `LocalDataAdapter.getCategories` (part_001 lines 147-150): deduplicated
set of the truthy category values, in first-occurrence order. -/
def localGetCategories (localItems : List RawItem) : List String :=
  dedupFirst (filterTruthy (localItems.map (·.category)))

/-! ### Spec-side pipeline for C4 (stated from the words of the spec) -/

/-- Modelled from the spec, step (1): case-insensitive substring search
across title/level/benefits/keys/category/tags, applied only when a search
term is present. -/
def specSearchStep (params : QueryParams) (l : List RawItem) : List RawItem :=
  if optTruthy params.search then
    l.filter (matchesSearch (lowerChars (params.search.getD "").data))
  else l

/-- Modelled from the spec, step (2): exact category equality filter. -/
def specCategoryStep (params : QueryParams) (l : List RawItem) :
    List RawItem :=
  if optTruthy params.category then
    l.filter fun item => item.category = params.category
  else l

/-- Modelled from the spec, step (4): the pagination slice
`[(page-1)*limit, page*limit)`. -/
def specSlice (page limit : Nat) (l : List RawItem) : List RawItem :=
  (l.drop ((page - 1) * limit)).take limit

/-- Modelled from the spec: the whole pipeline (1) search, (2) category,
(3) sort, (4) slice, then conversion, with the filtered-count as `total`. -/
def specPipeline (localItems : List RawItem) (params : QueryParams) :
    ApiResponse :=
  let afterFilters := specCategoryStep params (specSearchStep params localItems)
  let sorted := sortRawItems params afterFilters
  let page := jsOrNat params.page 1
  let limit := jsOrNat params.limit 3
  { items := (specSlice page limit sorted).mapIdx fun index item =>
      convertToApiFormat item ((page - 1) * limit + index)
    pagination := { page := page, limit := limit, total := afterFilters.length } }

/-! ### Claims C4 and C6 -/

lemma sortRawItems_perm (params : QueryParams) (l : List RawItem) :
    (sortRawItems params l).Perm l := by
  unfold sortRawItems
  split
  · split
    · exact List.mergeSort_perm l _
    · split
      · exact List.mergeSort_perm l _
      · exact List.Perm.refl l
  · exact List.Perm.refl l

lemma sortRawItems_length (params : QueryParams) (l : List RawItem) :
    (sortRawItems params l).length = l.length :=
  (sortRawItems_perm params l).length_eq

/-- C4: for every `QueryParams`, the local `getYogaPoses` is exactly the
pipeline: (1) case-insensitive substring search, (2) exact category filter,
(3) sort, (4) pagination slice `[(page-1)*limit, page*limit)`; the returned
items number at most `limit`, and `pagination.total` is the number of items
surviving the filters before slicing. -/
theorem getYogaPoses_pipeline (localItems : List RawItem)
    (params : QueryParams) :
    getYogaPoses localItems params = specPipeline localItems params ∧
    (getYogaPoses localItems params).items.length ≤ jsOrNat params.limit 3 ∧
    (getYogaPoses localItems params).pagination.total =
      (specCategoryStep params (specSearchStep params localItems)).length := by
  refine ⟨?_, ?_, ?_⟩
  · simp only [getYogaPoses, specPipeline, specSearchStep, specCategoryStep,
      specSlice]
    rw [sortRawItems_length]
  · show ((((sortRawItems params _).drop _).take _).mapIdx _).length ≤ _
    rw [List.length_mapIdx, List.length_take]
    exact min_le_left _ _
  · show (sortRawItems params _).length = _
    rw [sortRawItems_length]
    rfl

/-- C6: the local search filter only narrows: the result is no longer than
the input, every returned record is one of the inputs, and every returned
record contains the term case-insensitively in pose, level, benefits, keys,
category, or some tag. -/
theorem searchFilter_narrows (poses : List RawItem) (term : String) :
    ((poses.filter (matchesSearch (lowerChars term.data))).length ≤
      poses.length) ∧
    (∀ p ∈ poses.filter (matchesSearch (lowerChars term.data)), p ∈ poses) ∧
    (∀ p ∈ poses.filter (matchesSearch (lowerChars term.data)),
      optLowerIncludes p.pose (lowerChars term.data) = true ∨
      optLowerIncludes p.level (lowerChars term.data) = true ∨
      optLowerIncludes p.benefits (lowerChars term.data) = true ∨
      optLowerIncludes p.keys (lowerChars term.data) = true ∨
      optLowerIncludes p.category (lowerChars term.data) = true ∨
      (∃ tags, p.tags = some tags ∧
        ∃ tag ∈ tags,
          strIncludes (lowerChars tag.data) (lowerChars term.data) = true)) := by
  refine ⟨List.length_filter_le _ _, fun p hp => (List.mem_filter.mp hp).1,
    fun p hp => ?_⟩
  have hm := (List.mem_filter.mp hp).2
  unfold matchesSearch at hm
  simp only [Bool.or_eq_true] at hm
  have htags : (match p.tags with
      | some tags => tags.any fun tag =>
          strIncludes (lowerChars tag.data) (lowerChars term.data)
      | none => false) = true →
      ∃ tags, p.tags = some tags ∧
        ∃ tag ∈ tags,
          strIncludes (lowerChars tag.data) (lowerChars term.data) = true := by
    rcases ht : p.tags with _ | tags
    · simp
    · simp only [List.any_eq_true]
      exact fun ⟨tag, h1, h2⟩ => ⟨tags, rfl, tag, h1, h2⟩
  tauto

/-- Concrete raw record used by witnesses below. -/
def rawTreeItem : RawItem :=
  { pose := some "Pose : Tree Pose", level := some "Level : Beginner",
    benefits := some "balance", keys := some "focus",
    category := some "Standing", tags := some ["balance", "standing"] }

theorem searchFilter_narrows_witness :
    rawTreeItem ∈ [rawTreeItem].filter (matchesSearch (lowerChars "tree".data)) ∧
    (optLowerIncludes rawTreeItem.pose (lowerChars "tree".data) = true ∨
      optLowerIncludes rawTreeItem.level (lowerChars "tree".data) = true ∨
      optLowerIncludes rawTreeItem.benefits (lowerChars "tree".data) = true ∨
      optLowerIncludes rawTreeItem.keys (lowerChars "tree".data) = true ∨
      optLowerIncludes rawTreeItem.category (lowerChars "tree".data) = true ∨
      (∃ tags, rawTreeItem.tags = some tags ∧
        ∃ tag ∈ tags,
          strIncludes (lowerChars tag.data) (lowerChars "tree".data) = true)) :=
  ⟨by decide, (searchFilter_narrows [rawTreeItem] "tree").2.2 rawTreeItem
    (by decide)⟩

/-! ## Query/Filter State: FilterManager.sortLocalPoses
(src/src/services/filter.ts lines 153-183) -/

/-- Sort key for field "title" in `sortLocalPoses`: `a.title.toLowerCase()`. -/
def poseTitleKey (p : YogaPose) : List Char := lowerChars p.title.data

/-- Sort key for field "category" in `sortLocalPoses`:
`a.category.toLowerCase()`. -/
def poseCategoryKey (p : YogaPose) : List Char := lowerChars p.category.data

/-- `FilterManager.sortLocalPoses` (filter.ts lines 153-183), with the
`currentSort` setting passed explicitly. "default" returns the input
unchanged; otherwise the setting splits on "-" into field and order and a
stable sort runs with the (possibly swapped) case-insensitive comparator;
for an unrecognised field the comparator returns 0 everywhere, so the
stable sort leaves the list unchanged. -/
def sortLocalPoses (currentSort : String) (poses : List YogaPose) :
    List YogaPose :=
  if currentSort = "default" then poses
  else
    let parts := splitOnChar '-' currentSort.data
    let field := String.mk (parts.headD [])
    let order := (parts.get? 1).map String.mk
    if field = "title" then poses.mergeSort (keyLe poseTitleKey order)
    else if field = "category" then
      poses.mergeSort (keyLe poseCategoryKey order)
    else poses

/-! ### Order facts about the comparator -/

lemma lexLe_total (a b : List Char) : (lexLe a b || lexLe b a) = true := by
  induction a generalizing b with
  | nil => simp [lexLe]
  | cons c cs ih =>
    cases b with
    | nil => simp [lexLe]
    | cons d ds =>
      unfold lexLe
      by_cases h : c = d
      · subst h
        simpa using ih ds
      · simp only [if_neg h, if_neg (Ne.symm h), Bool.or_eq_true,
          decide_eq_true_eq]
        exact lt_or_gt_of_ne h

lemma lexLe_trans : ∀ {a b c : List Char}, lexLe a b = true →
    lexLe b c = true → lexLe a c = true := by
  intro a
  induction a with
  | nil =>
    intro b c _ _
    simp [lexLe]
  | cons x xs ih =>
    intro b c hab hbc
    cases b with
    | nil => simp [lexLe] at hab
    | cons y ys =>
      cases c with
      | nil => simp [lexLe] at hbc
      | cons z zs =>
        unfold lexLe at hab hbc ⊢
        by_cases hxy : x = y
        · subst hxy
          by_cases hxz : x = z
          · subst hxz
            simp only [if_pos rfl] at hab hbc ⊢
            exact ih hab hbc
          · simp only [if_pos rfl] at hab
            simp only [if_neg hxz] at hbc ⊢
            exact hbc
        · by_cases hyz : y = z
          · subst hyz
            simp only [if_neg hxy] at hab ⊢
            exact hab
          · simp only [if_neg hxy, decide_eq_true_eq] at hab
            simp only [if_neg hyz, decide_eq_true_eq] at hbc
            have hxz : x < z := lt_trans hab hbc
            simp [ne_of_lt hxz, hxz]

lemma lexLe_antisymm : ∀ {a b : List Char}, lexLe a b = true →
    lexLe b a = true → a = b := by
  intro a
  induction a with
  | nil =>
    intro b _ hba
    cases b with
    | nil => rfl
    | cons d ds => simp [lexLe] at hba
  | cons c cs ih =>
    intro b hab hba
    cases b with
    | nil => simp [lexLe] at hab
    | cons d ds =>
      unfold lexLe at hab hba
      by_cases h : c = d
      · subst h
        simp only [if_pos rfl] at hab hba
        rw [ih hab hba]
      · simp only [if_neg h, decide_eq_true_eq] at hab
        simp only [if_neg (Ne.symm h), decide_eq_true_eq] at hba
        exact absurd hab (lt_asymm hba)

/-- A permutation-respecting uniqueness fact: two lists that are sorted by
`lexLe` on a key, are permutations of each other, and have pairwise distinct
keys, are equal. -/
lemma sorted_eq_of_perm {α : Type} (key : α → List Char) :
    ∀ (l₁ l₂ : List α), l₁.Perm l₂ →
      l₁.Pairwise (fun a b => lexLe (key a) (key b) = true) →
      l₂.Pairwise (fun a b => lexLe (key a) (key b) = true) →
      (l₁.map key).Nodup → l₁ = l₂ := by
  intro l₁
  induction l₁ with
  | nil =>
    intro l₂ hp _ _ _
    exact hp.nil_eq
  | cons a t ih =>
    intro l₂ hp hs₁ hs₂ hnd
    cases l₂ with
    | nil =>
      have := hp.length_eq
      simp at this
    | cons b u =>
      have hmem_a : a ∈ b :: u := hp.subset (List.mem_cons_self a t)
      have hmem_b : b ∈ a :: t := hp.symm.subset (List.mem_cons_self b u)
      have hab : a = b := by
        rcases List.mem_cons.mp hmem_a with h | hau
        · exact h
        rcases List.mem_cons.mp hmem_b with h | hbt
        · exact h.symm
        have h1 : lexLe (key a) (key b) = true :=
          (List.pairwise_cons.mp hs₁).1 b hbt
        have h2 : lexLe (key b) (key a) = true :=
          (List.pairwise_cons.mp hs₂).1 a hau
        have hkey : key a = key b := lexLe_antisymm h1 h2
        have hnotin : key a ∉ t.map key := (List.nodup_cons.mp hnd).1
        exact absurd (hkey ▸ List.mem_map_of_mem key hbt) hnotin
      subst hab
      have htu : t.Perm u := hp.cons_inv
      have := ih u htu (List.Pairwise.of_cons hs₁) (List.Pairwise.of_cons hs₂)
        (List.nodup_cons.mp hnd).2
      rw [this]

/-- With pairwise-distinct keys, the stable ascending sort is the reverse of
the stable descending sort. -/
lemma mergeSort_asc_eq_reverse_desc {α : Type} (key : α → List Char)
    (l : List α) (hnd : (l.map key).Nodup) :
    l.mergeSort (fun a b => lexLe (key a) (key b)) =
      (l.mergeSort (fun a b => lexLe (key b) (key a))).reverse := by
  have hA : (l.mergeSort (fun a b => lexLe (key a) (key b))).Pairwise
      (fun a b => lexLe (key a) (key b) = true) :=
    @List.sorted_mergeSort α (fun a b => lexLe (key a) (key b))
      (fun a b c => lexLe_trans)
      (fun a b => lexLe_total (key a) (key b)) l
  have hD : (l.mergeSort (fun a b => lexLe (key b) (key a))).Pairwise
      (fun a b => lexLe (key b) (key a) = true) :=
    @List.sorted_mergeSort α (fun a b => lexLe (key b) (key a))
      (fun a b c hab hbc => lexLe_trans hbc hab)
      (fun a b => lexLe_total (key b) (key a)) l
  have hDrev : (l.mergeSort (fun a b => lexLe (key b) (key a))).reverse.Pairwise
      (fun a b => lexLe (key a) (key b) = true) :=
    List.pairwise_reverse.mpr hD
  have hperm : (l.mergeSort (fun a b => lexLe (key a) (key b))).Perm
      (l.mergeSort (fun a b => lexLe (key b) (key a))).reverse :=
    (List.mergeSort_perm l _).trans
      ((List.mergeSort_perm l _).symm.trans (List.reverse_perm _).symm)
  have hndA : ((l.mergeSort (fun a b => lexLe (key a) (key b))).map key).Nodup :=
    (((List.mergeSort_perm l _).map key).nodup_iff).mpr hnd
  exact sorted_eq_of_perm key _ _ hperm hA hDrev hndA

/-! ### Claim C7 -/

lemma sortLocalPoses_title_asc (l : List YogaPose) :
    sortLocalPoses "title-asc" l =
      l.mergeSort (fun a b => lexLe (poseTitleKey a) (poseTitleKey b)) := rfl

lemma sortLocalPoses_title_desc (l : List YogaPose) :
    sortLocalPoses "title-desc" l =
      l.mergeSort (fun a b => lexLe (poseTitleKey b) (poseTitleKey a)) := rfl

lemma sortLocalPoses_category_asc (l : List YogaPose) :
    sortLocalPoses "category-asc" l =
      l.mergeSort (fun a b => lexLe (poseCategoryKey a) (poseCategoryKey b)) :=
  rfl

lemma sortLocalPoses_category_desc (l : List YogaPose) :
    sortLocalPoses "category-desc" l =
      l.mergeSort (fun a b => lexLe (poseCategoryKey b) (poseCategoryKey a)) :=
  rfl

/-- First of the two poses sharing the lowercased title "tree". -/
def poseTree1 : YogaPose :=
  { id := 1, title := "Tree", description := "", category := "A",
    imageUrl := "", videoUrl := "" }

/-- Second of the two poses sharing the lowercased title "tree". -/
def poseTree2 : YogaPose :=
  { id := 2, title := "tree", description := "", category := "B",
    imageUrl := "", videoUrl := "" }

/-- C7 counterexample: with two distinct poses whose titles agree up to
case, the stable sort keeps the original order for both "title-asc" and
"title-desc", so the two results are not reverses of each other. -/
theorem sortLocalPoses_not_reverse :
    sortLocalPoses "title-asc" [poseTree1, poseTree2] ≠
      (sortLocalPoses "title-desc" [poseTree1, poseTree2]).reverse := by
  have h1 : sortLocalPoses "title-asc" [poseTree1, poseTree2] =
      [poseTree1, poseTree2] := by
    rw [sortLocalPoses_title_asc]
    exact List.mergeSort_of_sorted (by decide)
  have h2 : sortLocalPoses "title-desc" [poseTree1, poseTree2] =
      [poseTree1, poseTree2] := by
    rw [sortLocalPoses_title_desc]
    exact List.mergeSort_of_sorted (by decide)
  rw [h1, h2]
  decide

/-- C7 (amended): `sortLocalPoses` always returns a permutation of its
input; with setting "default" it is the identity; and whenever the sort
keys of the list are pairwise distinct, sorting ascending and sorting
descending by the same field produce results that are reverses of each
other (with tied keys the stable sort instead keeps the original order in
both directions). -/
theorem sortLocalPoses_spec :
    (∀ (s : String) (l : List YogaPose), (sortLocalPoses s l).Perm l) ∧
    (∀ l : List YogaPose, sortLocalPoses "default" l = l) ∧
    (∀ l : List YogaPose, (l.map poseTitleKey).Nodup →
      sortLocalPoses "title-asc" l =
        (sortLocalPoses "title-desc" l).reverse) ∧
    (∀ l : List YogaPose, (l.map poseCategoryKey).Nodup →
      sortLocalPoses "category-asc" l =
        (sortLocalPoses "category-desc" l).reverse) := by
  refine ⟨?_, fun l => rfl, ?_, ?_⟩
  · intro s l
    unfold sortLocalPoses
    split
    · exact List.Perm.refl l
    · dsimp only
      split
      · exact List.mergeSort_perm l _
      · split
        · exact List.mergeSort_perm l _
        · exact List.Perm.refl l
  · intro l hnd
    rw [sortLocalPoses_title_asc, sortLocalPoses_title_desc]
    exact mergeSort_asc_eq_reverse_desc poseTitleKey l hnd
  · intro l hnd
    rw [sortLocalPoses_category_asc, sortLocalPoses_category_desc]
    exact mergeSort_asc_eq_reverse_desc poseCategoryKey l hnd

/-- Pose with title "b", distinct key from `poseTitleA`. -/
def poseTitleB : YogaPose :=
  { id := 3, title := "b", description := "", category := "C",
    imageUrl := "", videoUrl := "" }

/-- Pose with title "a", distinct key from `poseTitleB`. -/
def poseTitleA : YogaPose :=
  { id := 4, title := "a", description := "", category := "D",
    imageUrl := "", videoUrl := "" }

theorem sortLocalPoses_spec_witness :
    ([poseTitleB, poseTitleA].map poseTitleKey).Nodup ∧
    sortLocalPoses "title-asc" [poseTitleB, poseTitleA] =
      (sortLocalPoses "title-desc" [poseTitleB, poseTitleA]).reverse :=
  ⟨by decide, sortLocalPoses_spec.2.2.1 [poseTitleB, poseTitleA] (by decide)⟩

/-! ## Remote Client: response bodies and fetch outcomes -/

/-- One item of a remote poses payload, with both the snake_case and the
camelCase spellings the code coalesces (part_000 lines 83-91); only the
fields the modelled code reads are carried. -/
structure RemoteItem where
  image_url : Option String := none
  imageUrl : Option String := none
  video_url : Option String := none
  videoUrl : Option String := none
  difficulty : Option String := none
  level : Option String := none
  keys : Option String := none
  cautions : Option String := none
  category : Option String := none
deriving DecidableEq

/-- Fields of a successfully parsed JSON body that the client code reads
(auth, bookmark, category and list-poses responses); absent field =
`undefined`. -/
structure RPayload where
  user_id : Option Nat := none
  token : Option String := none
  message : Option String := none
  item_ids : Option (List Nat) := none
  categories : Option (List String) := none
  items : Option (List RemoteItem) := none
deriving DecidableEq

/-- A response body as seen by `JSON.parse`: either unparseable, or an
object with an optional `error` string, an optional `details` string, and
the payload fields. -/
inductive RBody where
  | malformed
  | obj (error : Option String) (details : Option String) (payload : RPayload)
deriving DecidableEq

/-- Outcome of one `fetch` call: either the promise rejects (network-level
exception) or a response arrives with its `ok` flag, HTTP status and body. -/
inductive AttemptOutcome where
  | netErr (msg : String)
  | resp (ok : Bool) (status : Nat) (body : RBody)
deriving DecidableEq

/-- The errors the two clients construct, kept structured instead of as
formatted message strings:
`network` = the exception thrown by `fetch` itself;
`formatError s` = "API 回應格式錯誤: s" (apiService.ts line 65);
`httpError s` = "HTTP error! status: s" (part_000 line 103);
`parseFailure` = the rethrown JSON.parse error (part_000 line 105);
`testError m` = "測試錯誤: m" (part_000 line 73);
`otherError m` = the error field itself (part_000 line 78);
`requestFailed` = "API 請求失敗" (apiService.ts line 79);
`allRetriesFailed` = "所有重試都失敗了" (part_000 line 190). -/
inductive FetchErr where
  | network (msg : String)
  | formatError (status : Nat)
  | httpError (status : Nat)
  | parseFailure
  | testError (msg : String)
  | otherError (msg : String)
  | requestFailed
  | allRetriesFailed
deriving DecidableEq

/-- Model of `data.details?.includes("testing purposes")`. -/
def hasTestDetails : Option String → Bool
  | some d => strIncludes d.data "testing purposes".data
  | none => false

/-! ## Remote Client with retry: ApiService.fetchWithRetry
(src/src/services/apiService.ts lines 21-80) -/

/-- Processing of a single attempt inside `fetchWithRetry` (apiService.ts
lines 25-66). The two `throw new Error(...)` statements at lines 45 and 50
(test error, other error) are raised inside the `try` block whose
`catch (parseError)` clause starts at line 60, so they are caught right
there, exactly like a JSON.parse failure: the clause returns the response
when `response.ok` and otherwise throws "API 回應格式錯誤: status". Hence
the attempt outcome depends only on `response.ok` once the body is an
error object or unparseable. `Except.ok` means a response is returned to
the caller (the rebuilt or original `Response` object). -/
def attemptStepA : AttemptOutcome → Except FetchErr Unit
  | .netErr m => .error (.network m)
  | .resp ok status body =>
    match body with
    | .obj err details _payload =>
      if optTruthy err && hasTestDetails details then
        if ok then .ok () else .error (.formatError status)
      else if optTruthy err then
        if ok then .ok () else .error (.formatError status)
      else .ok ()
    | .malformed => if ok then .ok () else .error (.formatError status)

/-- Result of `fetchWithRetry`: the returned response (identified by the
index of the attempt that produced it) or the propagated error, together
with the number of fetch attempts made and the list of backoff delays
awaited, in order, in milliseconds. -/
structure RetryResult where
  result : Except FetchErr Nat
  attempts : Nat
  delays : List Nat

/-- The retry loop of `fetchWithRetry` (apiService.ts lines 24-79):
`remaining` counts the loop iterations still allowed (initially
`retryCount = 3`), `i` is the current 0-based attempt index, and
`lastError` the last caught error. After a failure with further iterations
left the code awaits `retryDelay * (i + 1)` ms; after the loop it throws
`lastError || Error("API 請求失敗")`. -/
def fetchWithRetryAux (env : Nat → AttemptOutcome) :
    Nat → Nat → Option FetchErr → RetryResult
  | _, 0, lastError =>
    { result := .error (lastError.getD .requestFailed), attempts := 0,
      delays := [] }
  | i, remaining + 1, _lastError =>
    match attemptStepA (env i) with
    | .ok _ => { result := .ok i, attempts := 1, delays := [] }
    | .error e =>
      if 0 < remaining then
        let rest := fetchWithRetryAux env (i + 1) remaining (some e)
        { result := rest.result, attempts := rest.attempts + 1,
          delays := 1000 * (i + 1) :: rest.delays }
      else { result := .error e, attempts := 1, delays := [] }

/-- `ApiService.fetchWithRetry` (apiService.ts lines 21-80): up to 3
attempts against the environment `env` (attempt index ↦ fetch outcome). -/
def fetchWithRetryA (env : Nat → AttemptOutcome) : RetryResult :=
  fetchWithRetryAux env 0 3 none

/-! ### Claims C2 and C3 -/

/-- An error object NOT marked as injected for testing. -/
def nonTestErrorBody : RBody :=
  .obj (some "db down") (some "connection refused") {}

/-- An error object marked as injected for testing. -/
def testErrorBody : RBody :=
  .obj (some "simulated failure") (some "Error for testing purposes") {}

/-- C2 (code bug): the handler does not discriminate fault classes. A
terminal (non-test) error object carried by a non-ok response is retried
three times instead of being surfaced immediately, and a test-marked error
object carried by an ok response is returned as a success instead of being
retried: the throws that implement the discrimination are swallowed by the
`catch (parseError)` block, so only `response.ok` decides. -/
theorem fetchWithRetryA_no_discrimination :
    fetchWithRetryA (fun _ => .resp false 500 nonTestErrorBody) =
      { result := .error (.formatError 500), attempts := 3,
        delays := [1000, 2000] } ∧
    fetchWithRetryA (fun _ => .resp true 200 testErrorBody) =
      { result := .ok 0, attempts := 1, delays := [] } :=
  ⟨rfl, rfl⟩

/-- C3 counterexample: for a request that keeps failing, the inserted
delays are 1000 ms and 2000 ms only — no 3000 ms delay ever happens,
because no delay follows the third (final) attempt. -/
theorem retryDelays_counterexample :
    (fetchWithRetryA (fun _ => .netErr "ECONNREFUSED")).delays =
      [1000, 2000] ∧
    (fetchWithRetryA (fun _ => .netErr "ECONNREFUSED")).delays ≠
      [1000, 2000, 3000] :=
  ⟨rfl, by decide⟩

lemma fetchWithRetryAux_ok (env : Nat → AttemptOutcome) (i remaining : Nat)
    (lastError : Option FetchErr) (u : Unit)
    (h : attemptStepA (env i) = .ok u) :
    fetchWithRetryAux env i (remaining + 1) lastError =
      { result := .ok i, attempts := 1, delays := [] } := by
  unfold fetchWithRetryAux
  rw [h]

lemma fetchWithRetryAux_err_cont (env : Nat → AttemptOutcome)
    (i remaining : Nat) (lastError : Option FetchErr) (e : FetchErr)
    (h : attemptStepA (env i) = .error e) (hrem : 0 < remaining) :
    fetchWithRetryAux env i (remaining + 1) lastError =
      { result := (fetchWithRetryAux env (i + 1) remaining (some e)).result,
        attempts := (fetchWithRetryAux env (i + 1) remaining (some e)).attempts
          + 1,
        delays := 1000 * (i + 1) ::
          (fetchWithRetryAux env (i + 1) remaining (some e)).delays } := by
  conv_lhs => unfold fetchWithRetryAux
  rw [h]
  simp [hrem]

lemma fetchWithRetryAux_err_last (env : Nat → AttemptOutcome) (i : Nat)
    (lastError : Option FetchErr) (e : FetchErr)
    (h : attemptStepA (env i) = .error e) :
    fetchWithRetryAux env i 1 lastError =
      { result := .error e, attempts := 1, delays := [] } := by
  show fetchWithRetryAux env i (0 + 1) lastError = _
  unfold fetchWithRetryAux
  rw [h]
  simp

/-- C3 (amended): the wrapper makes at most 3 attempts; the delay after the
i-th failed attempt, for i = 1, 2, is i × 1000 ms, there is no delay after
the final attempt (so a persistently failing request sees delays 1 s and
2 s, never a 3 s delay), and after the final attempt fails the error of the
last attempt propagates. -/
theorem fetchWithRetryA_spec (env : Nat → AttemptOutcome) :
    (fetchWithRetryA env).attempts ≤ 3 ∧
    (fetchWithRetryA env).delays =
      [1000, 2000].take ((fetchWithRetryA env).attempts - 1) ∧
    (∀ e0 e1 e2 : FetchErr, attemptStepA (env 0) = .error e0 →
      attemptStepA (env 1) = .error e1 →
      attemptStepA (env 2) = .error e2 →
      fetchWithRetryA env =
        { result := .error e2, attempts := 3, delays := [1000, 2000] }) := by
  rcases h0 : attemptStepA (env 0) with e0 | u0
  · rcases h1 : attemptStepA (env 1) with e1 | u1
    · rcases h2 : attemptStepA (env 2) with e2 | u2
      · have hval : fetchWithRetryA env =
            { result := .error e2, attempts := 3, delays := [1000, 2000] } := by
          show fetchWithRetryAux env 0 (2 + 1) none = _
          rw [fetchWithRetryAux_err_cont env 0 2 none e0 h0 (by norm_num),
            fetchWithRetryAux_err_cont env 1 1 (some e0) e1 h1 (by norm_num),
            fetchWithRetryAux_err_last env 2 (some e1) e2 h2]
        rw [hval]
        refine ⟨by norm_num, rfl, fun f0 f1 f2 g0 g1 g2 => ?_⟩
        injection g2 with hef
        rw [hef]
      · have hval : fetchWithRetryA env =
            { result := .ok 2, attempts := 3, delays := [1000, 2000] } := by
          show fetchWithRetryAux env 0 (2 + 1) none = _
          rw [fetchWithRetryAux_err_cont env 0 2 none e0 h0 (by norm_num),
            fetchWithRetryAux_err_cont env 1 1 (some e0) e1 h1 (by norm_num),
            fetchWithRetryAux_ok env 2 0 (some e1) u2 h2]
        rw [hval]
        refine ⟨by norm_num, rfl, fun f0 f1 f2 g0 g1 g2 => ?_⟩
        exact Except.noConfusion g2
    · have hval : fetchWithRetryA env =
          { result := .ok 1, attempts := 2, delays := [1000] } := by
        show fetchWithRetryAux env 0 (2 + 1) none = _
        rw [fetchWithRetryAux_err_cont env 0 2 none e0 h0 (by norm_num),
          fetchWithRetryAux_ok env 1 1 (some e0) u1 h1]
      rw [hval]
      refine ⟨by norm_num, rfl, fun f0 f1 f2 g0 g1 g2 => ?_⟩
      exact Except.noConfusion g1
  · have hval : fetchWithRetryA env =
        { result := .ok 0, attempts := 1, delays := [] } := by
      show fetchWithRetryAux env 0 (2 + 1) none = _
      rw [fetchWithRetryAux_ok env 0 2 none u0 h0]
    rw [hval]
    refine ⟨by norm_num, rfl, fun f0 f1 f2 g0 g1 g2 => ?_⟩
    exact Except.noConfusion g0

theorem fetchWithRetryA_spec_witness :
    fetchWithRetryA (fun _ => .netErr "ECONNREFUSED") =
      { result := .error (.network "ECONNREFUSED"), attempts := 3,
        delays := [1000, 2000] } :=
  (fetchWithRetryA_spec (fun _ => .netErr "ECONNREFUSED")).2.2
    (.network "ECONNREFUSED") (.network "ECONNREFUSED")
    (.network "ECONNREFUSED") rfl rfl rfl

/-! ## Catalogue Service facade: ApiService with local fallback
(src/unnamed/part_000) -/

/-- State of the facade `ApiService` together with the durable browser
storage it uses: the auth token (the in-memory field and the localStorage
key "auth_token" agree after construction), the demotion flag, the parsed
localStorage "local_bookmarks" list, and the bundled dataset held by its
`LocalDataAdapter`. -/
structure SvcState where
  token : Option String := none
  useLocalData : Bool := false
  localBookmarks : List Nat := []
  localItems : List RawItem := []
deriving DecidableEq

/-- `ApiService.setToken` (part_000 lines 34-37, api.ts lines 34-37). -/
def setToken (s : SvcState) (token : String) : SvcState :=
  { s with token := some token }

/-- `ApiService.clearToken` (part_000 lines 42-45, api.ts lines 42-45). -/
def clearToken (s : SvcState) : SvcState :=
  { s with token := none }

/-- `ApiService.getAuthHeaders` (part_000 lines 50-60, api.ts lines 50-60):
always Content-Type; Authorization added only when the token is truthy. -/
def getAuthHeaders (token : Option String) : List (String × String) :=
  let headers := [("Content-Type", "application/json")]
  if optTruthy token then
    headers ++ [("Authorization", "Bearer " ++ token.getD "")]
  else headers

/-- Field coalescing in `handleResponse` (part_000 lines 83-91): spread the
item and overwrite the canonical fields with `snake_case || camelCase`. -/
def convertRemoteItem (item : RemoteItem) : RemoteItem :=
  { item with
    imageUrl := jsOrOpt item.image_url item.imageUrl
    videoUrl := jsOrOpt item.video_url item.videoUrl
    level := jsOrOpt item.difficulty item.level
    keys := jsOrOpt item.keys (some "暫無要點資訊")
    cautions := jsOrOpt item.cautions (some "暫無注意事項") }

/-- `ApiService.handleResponse` (part_000 lines 65-107): a test-marked
error object throws the test error, any other error object throws that
error; a malformed body throws the HTTP error when the response is not ok
and rethrows the parse error otherwise; a poses payload gets its items
coalesced; any other payload is returned as is. -/
def handleResponseB (ok : Bool) (status : Nat) (body : RBody) :
    Except FetchErr RPayload :=
  match body with
  | .malformed =>
    if ok then .error .parseFailure else .error (.httpError status)
  | .obj err details payload =>
    if optTruthy err && hasTestDetails details then
      .error (.testError (err.getD ""))
    else if optTruthy err then .error (.otherError (err.getD ""))
    else
      match payload.items with
      | some items =>
        .ok { payload with items := some (items.map convertRemoteItem) }
      | none => .ok payload

/-- The retry decision of part_000 `fetchWithRetry` (lines 158-166): the
non-ok body parses to an object whose error is truthy and whose details
mark the fault as injected for testing; a parse failure there is swallowed
and does not retry. -/
def isTestBody : RBody → Bool
  | .obj err details _ => optTruthy err && hasTestDetails details
  | .malformed => false

/-- The loop of `ApiService.fetchWithRetry` (part_000 lines 150-191):
`remaining` counts iterations still allowed (initially 3), `i` is the
0-based attempt index. A network exception rethrows on the last attempt
and otherwise waits and retries; a non-ok response with a test-marked body
waits and retries unless on the last attempt; any other response is
returned to the caller (rebuilt from its text when not ok). The timed
waits of 1000 * (i + 1) ms are not tracked: no claim concerns the delays
of this variant. The result pairs the returned response (ok flag, status,
body) or the thrown error with the number of fetch calls made. -/
def fetchWithRetryBAux (env : Nat → AttemptOutcome) :
    Nat → Nat → Except FetchErr (Bool × Nat × RBody) × Nat
  | _, 0 => (.error .allRetriesFailed, 0)
  | i, remaining + 1 =>
    match env i with
    | .netErr m =>
      if remaining = 0 then (.error (.network m), 1)
      else
        let rest := fetchWithRetryBAux env (i + 1) remaining
        (rest.1, rest.2 + 1)
    | .resp ok status body =>
      if ok then (.ok (ok, status, body), 1)
      else if isTestBody body && 0 < remaining then
        let rest := fetchWithRetryBAux env (i + 1) remaining
        (rest.1, rest.2 + 1)
      else (.ok (ok, status, body), 1)

/-- `ApiService.fetchWithRetry` of part_000 with its default of 3 retries. -/
def fetchWithRetryB (env : Nat → AttemptOutcome) :
    Except FetchErr (Bool × Nat × RBody) × Nat :=
  fetchWithRetryBAux env 0 3

/-- What `fetchYogaPoses` returns: a remote payload or the local response. -/
inductive FetchSource where
  | remote (payload : RPayload)
  | localData (response : ApiResponse)

/-- `ApiService.fetchYogaPoses` (part_000 lines 112-145). Unlike every
other operation of this class it does NOT consult `useLocalData` first:
the comment at line 113 says it prefers the real API and uses local data
only on failure. Here `handleResponse` IS awaited (line 135), so both a
fetchWithRetry failure and a handleResponse failure land in the catch,
which sets `useLocalData := true` and serves the call from the
`LocalDataAdapter`. The number of fetch calls made is returned last. -/
def svcFetchYogaPoses (s : SvcState) (params : QueryParams)
    (env : Nat → AttemptOutcome) : SvcState × FetchSource × Nat :=
  match fetchWithRetryB env with
  | (.error _, n) =>
    ({ s with useLocalData := true },
      .localData (getYogaPoses s.localItems params), n)
  | (.ok (ok, status, body), n) =>
    match handleResponseB ok status body with
    | .error _ =>
      ({ s with useLocalData := true },
        .localData (getYogaPoses s.localItems params), n)
    | .ok payload => (s, .remote payload, n)

/-- One plain `fetch` followed by `handleResponse`, as used by signup,
login, checkAuth and the bookmark operations. These methods end with
`return this.handleResponse(response)` WITHOUT `await`, so a rejection
coming from `handleResponse` is not caught by the surrounding try/catch:
it propagates to the caller and does not demote. Only a rejection of
`fetch` itself (the `netErr` case) reaches the catch block. -/
def singleFetchResult : AttemptOutcome → Except FetchErr RPayload
  | .netErr m => .error (.network m)
  | .resp ok status body => handleResponseB ok status body

/-- The local branch of `addBookmark` (part_000 lines 283-290): append when
absent and report "newly bookmarked", else "already bookmarked". -/
def localAddBookmark (s : SvcState) (itemId : Nat) :
    SvcState × Option String :=
  if itemId ∉ s.localBookmarks then
    ({ s with localBookmarks := s.localBookmarks ++ [itemId] },
      some "newly bookmarked")
  else (s, some "already bookmarked")

/-- The local branch of `removeBookmark` (part_000 lines 313-320): splice
out the first occurrence when present and report "newly deleted", else
"already deleted". -/
def localRemoveBookmark (s : SvcState) (itemId : Nat) :
    SvcState × Option String :=
  if itemId ∈ s.localBookmarks then
    ({ s with localBookmarks := s.localBookmarks.erase itemId },
      some "newly deleted")
  else (s, some "already deleted")

/-- `ApiService.signup` (part_000 lines 196-220). In local mode a mock
`user_id = Date.now()` and token "mock_token_" + Date.now() are returned
(`now` stands for Date.now(); the two calls are merged). On a network
exception the catch sets the flag and re-invokes signup, which then takes
the local branch; that recursive call is unfolded here. -/
def svcSignup (s : SvcState) (now : Nat) (env : AttemptOutcome) :
    SvcState × Except FetchErr (Option Nat × Option String) × Nat :=
  if s.useLocalData then
    (s, .ok (some now, some ("mock_token_" ++ toString now)), 0)
  else
    match env with
    | .netErr _ =>
      let s1 := { s with useLocalData := true }
      (s1, .ok (some now, some ("mock_token_" ++ toString now)), 1)
    | .resp ok status body =>
      (s, (handleResponseB ok status body).map fun p => (p.user_id, p.token),
        1)

/-- `ApiService.login` (part_000 lines 225-249): same shape as signup. -/
def svcLogin (s : SvcState) (now : Nat) (env : AttemptOutcome) :
    SvcState × Except FetchErr (Option Nat × Option String) × Nat :=
  if s.useLocalData then
    (s, .ok (some now, some ("mock_token_" ++ toString now)), 0)
  else
    match env with
    | .netErr _ =>
      let s1 := { s with useLocalData := true }
      (s1, .ok (some now, some ("mock_token_" ++ toString now)), 1)
    | .resp ok status body =>
      (s, (handleResponseB ok status body).map fun p => (p.user_id, p.token),
        1)

/-- `ApiService.checkAuth` (part_000 lines 254-276): with a falsy token it
returns user_id null at once, before the mode check and before any
request; in local mode a mock check on the token; otherwise one fetch,
whose un-awaited handleResponse result goes to the caller; a network
exception demotes and re-runs checkAuth (unfolded: the token is unchanged
and still truthy, so the local branch answers). -/
def svcCheckAuth (s : SvcState) (env : AttemptOutcome) :
    SvcState × Except FetchErr (Option Nat) × Nat :=
  if optTruthy s.token = false then (s, .ok none, 0)
  else if s.useLocalData then
    (s, .ok (if strStartsWith (s.token.getD "") "mock_token_" then some 12345
      else none), 0)
  else
    match env with
    | .netErr _ =>
      let s1 := { s with useLocalData := true }
      (s1, .ok (if strStartsWith (s1.token.getD "") "mock_token_" then
        some 12345 else none), 1)
    | .resp ok status body =>
      (s, (handleResponseB ok status body).map (·.user_id), 1)

/-- `ApiService.addBookmark` (part_000 lines 281-305). -/
def svcAddBookmark (s : SvcState) (itemId : Nat) (env : AttemptOutcome) :
    SvcState × Except FetchErr (Option String) × Nat :=
  if s.useLocalData then
    let r := localAddBookmark s itemId
    (r.1, .ok r.2, 0)
  else
    match env with
    | .netErr _ =>
      let r := localAddBookmark { s with useLocalData := true } itemId
      (r.1, .ok r.2, 1)
    | .resp ok status body =>
      (s, (handleResponseB ok status body).map (·.message), 1)

/-- `ApiService.removeBookmark` (part_000 lines 310-335). -/
def svcRemoveBookmark (s : SvcState) (itemId : Nat) (env : AttemptOutcome) :
    SvcState × Except FetchErr (Option String) × Nat :=
  if s.useLocalData then
    let r := localRemoveBookmark s itemId
    (r.1, .ok r.2, 0)
  else
    match env with
    | .netErr _ =>
      let r := localRemoveBookmark { s with useLocalData := true } itemId
      (r.1, .ok r.2, 1)
    | .resp ok status body =>
      (s, (handleResponseB ok status body).map (·.message), 1)

/-- `ApiService.getBookmarks` (part_000 lines 340-358). -/
def svcGetBookmarks (s : SvcState) (env : AttemptOutcome) :
    SvcState × Except FetchErr (Option (List Nat)) × Nat :=
  if s.useLocalData then (s, .ok (some s.localBookmarks), 0)
  else
    match env with
    | .netErr _ =>
      let s1 := { s with useLocalData := true }
      (s1, .ok (some s1.localBookmarks), 1)
    | .resp ok status body =>
      (s, (handleResponseB ok status body).map (·.item_ids), 1)

/-- `ApiService.getCategories` (part_000 lines 375-405): in local mode the
adapter categories; otherwise the categories endpoint through
fetchWithRetry and an awaited handleResponse; on any failure there, fall
back to extracting categories from `fetchYogaPoses(page 1, limit 100)`
(which itself may demote and serve local data); if that extraction throws
(its items field is absent, so `.map` raises a TypeError), the inner catch
demotes and answers with the adapter categories (lines 399-403). This is
the fallback chain of lines 391-404; `n` is the count of fetch calls
already made. -/
def svcGetCategoriesFallback (s : SvcState)
    (envPoses : Nat → AttemptOutcome) (n : Nat) :
    SvcState × List String × Nat :=
  let r := svcFetchYogaPoses s { page := some 1, limit := some 100 } envPoses
  match r.2.1 with
  | .remote p =>
    match p.items with
    | some items =>
      (r.1, filterTruthy (dedupFirst (items.map (·.category))), n + r.2.2)
    | none =>
      let s2 := { r.1 with useLocalData := true }
      (s2, localGetCategories s2.localItems, n + r.2.2)
  | .localData resp =>
    (r.1, (dedupFirst (resp.items.map (·.category))).filter
      (fun c => decide (c ≠ "")), n + r.2.2)

/-- `ApiService.getCategories` (part_000 lines 375-405): in local mode the
adapter categories; otherwise the categories endpoint through
fetchWithRetry and an awaited handleResponse; on any failure there the
fallback above runs. -/
def svcGetCategories (s : SvcState) (envCat envPoses : Nat → AttemptOutcome) :
    SvcState × List String × Nat :=
  if s.useLocalData then (s, localGetCategories s.localItems, 0)
  else
    match fetchWithRetryB envCat with
    | (.ok (ok, status, body), n) =>
      match handleResponseB ok status body with
      | .ok p => (s, p.categories.getD [], n)
      | .error _ => svcGetCategoriesFallback s envPoses n
    | (.error _, n) => svcGetCategoriesFallback s envPoses n

/-- One call descriptor: the operation together with its environment
inputs (remote outcomes, current clock). -/
inductive OpCall where
  | fetchPoses (params : QueryParams) (env : Nat → AttemptOutcome)
  | signup (now : Nat) (env : AttemptOutcome)
  | login (now : Nat) (env : AttemptOutcome)
  | checkAuth (env : AttemptOutcome)
  | addBookmark (itemId : Nat) (env : AttemptOutcome)
  | removeBookmark (itemId : Nat) (env : AttemptOutcome)
  | getBookmarks (env : AttemptOutcome)
  | getCategories (envCat envPoses : Nat → AttemptOutcome)

/-- Dispatch one operation of the facade, keeping the resulting state and
the number of remote requests (fetch calls) the operation issued. -/
def runOp (s : SvcState) : OpCall → SvcState × Nat
  | .fetchPoses params env =>
    let r := svcFetchYogaPoses s params env
    (r.1, r.2.2)
  | .signup now env =>
    let r := svcSignup s now env
    (r.1, r.2.2)
  | .login now env =>
    let r := svcLogin s now env
    (r.1, r.2.2)
  | .checkAuth env =>
    let r := svcCheckAuth s env
    (r.1, r.2.2)
  | .addBookmark itemId env =>
    let r := svcAddBookmark s itemId env
    (r.1, r.2.2)
  | .removeBookmark itemId env =>
    let r := svcRemoveBookmark s itemId env
    (r.1, r.2.2)
  | .getBookmarks env =>
    let r := svcGetBookmarks s env
    (r.1, r.2.2)
  | .getCategories envCat envPoses =>
    let r := svcGetCategories s envCat envPoses
    (r.1, r.2.2)

/-- Recogniser for the one operation that ignores the demotion flag. -/
def OpCall.isFetchPoses : OpCall → Bool
  | .fetchPoses _ _ => true
  | _ => false

/-! ### Claim C1 -/

lemma localAddBookmark_flag (s : SvcState) (itemId : Nat) :
    (localAddBookmark s itemId).1.useLocalData = s.useLocalData := by
  unfold localAddBookmark
  split <;> rfl

lemma localRemoveBookmark_flag (s : SvcState) (itemId : Nat) :
    (localRemoveBookmark s itemId).1.useLocalData = s.useLocalData := by
  unfold localRemoveBookmark
  split <;> rfl

/-- C1 (amended): the demotion flag is one-way (no operation ever resets
it to false), and once it is set every operation except fetchYogaPoses is
served by the local path with no remote request; fetchYogaPoses, however,
always attempts the Remote Client first regardless of the flag, falling
back to local data per call on failure. -/
theorem useLocalData_sticky (s : SvcState) (c : OpCall)
    (h : s.useLocalData = true) :
    (runOp s c).1.useLocalData = true ∧
    (c.isFetchPoses = false → (runOp s c).2 = 0) := by
  cases c with
  | fetchPoses params env =>
    refine ⟨?_, fun hc => by simp [OpCall.isFetchPoses] at hc⟩
    simp only [runOp]
    unfold svcFetchYogaPoses
    split
    · rfl
    · split
      · rfl
      · exact h
  | signup now env =>
    exact ⟨by simp [runOp, svcSignup, h], fun _ => by simp [runOp, svcSignup, h]⟩
  | login now env =>
    exact ⟨by simp [runOp, svcLogin, h], fun _ => by simp [runOp, svcLogin, h]⟩
  | checkAuth env =>
    by_cases ht : optTruthy s.token = false
    · exact ⟨by simp [runOp, svcCheckAuth, ht, h],
        fun _ => by simp [runOp, svcCheckAuth, ht, h]⟩
    · exact ⟨by simp [runOp, svcCheckAuth, ht, h],
        fun _ => by simp [runOp, svcCheckAuth, ht, h]⟩
  | addBookmark itemId env =>
    refine ⟨?_, fun _ => by simp [runOp, svcAddBookmark, h]⟩
    simp only [runOp, svcAddBookmark, h, if_true]
    rw [localAddBookmark_flag]
    exact h
  | removeBookmark itemId env =>
    refine ⟨?_, fun _ => by simp [runOp, svcRemoveBookmark, h]⟩
    simp only [runOp, svcRemoveBookmark, h, if_true]
    rw [localRemoveBookmark_flag]
    exact h
  | getBookmarks env =>
    exact ⟨by simp [runOp, svcGetBookmarks, h],
      fun _ => by simp [runOp, svcGetBookmarks, h]⟩
  | getCategories envCat envPoses =>
    exact ⟨by simp [runOp, svcGetCategories, h],
      fun _ => by simp [runOp, svcGetCategories, h]⟩

/-- Environment whose first attempt yields an ok empty-object response. -/
def okEnv : Nat → AttemptOutcome := fun _ => .resp true 200 (.obj none none {})

/-- A state already demoted to local mode. -/
def demotedState : SvcState := { useLocalData := true }

/-- C1 counterexample: in a session already demoted to local mode, a
fetchYogaPoses call still issues a remote request (here exactly one),
contradicting the claim that once the flag is set no subsequent operation
issues a request to the Remote Client. -/
theorem fetchPoses_requests_after_demotion :
    (runOp demotedState (.fetchPoses {} okEnv)).2 ≠ 0 := by decide

theorem useLocalData_sticky_witness :
    (runOp demotedState (.getBookmarks (.netErr "down"))).1.useLocalData =
      true ∧
    (runOp demotedState (.getBookmarks (.netErr "down"))).2 = 0 :=
  ⟨(useLocalData_sticky demotedState (.getBookmarks (.netErr "down")) rfl).1,
    (useLocalData_sticky demotedState (.getBookmarks (.netErr "down")) rfl).2
      rfl⟩

/-! ### Claim C8 -/

/-- C8 (amended): in local mode, add-bookmark twice on the same id is
idempotent from every state: the second call reports "already bookmarked"
and changes nothing. Remove-bookmark twice is idempotent whenever the
stored list holds the id at most once - which the service's own operations
preserve - with the second call reporting "already deleted" and changing
nothing; a stored list with duplicated ids (obtainable only by seeding the
durable storage from outside) breaks the remove half, see the
counterexample. -/
theorem bookmarkOps_idempotent (s : SvcState) (itemId : Nat)
    (e1 e2 : AttemptOutcome) (h : s.useLocalData = true) :
    ((svcAddBookmark (svcAddBookmark s itemId e1).1 itemId e2).2.1 =
        .ok (some "already bookmarked") ∧
      (svcAddBookmark (svcAddBookmark s itemId e1).1 itemId e2).1 =
        (svcAddBookmark s itemId e1).1) ∧
    (s.localBookmarks.count itemId ≤ 1 →
      (svcRemoveBookmark (svcRemoveBookmark s itemId e1).1 itemId e2).2.1 =
        .ok (some "already deleted") ∧
      (svcRemoveBookmark (svcRemoveBookmark s itemId e1).1 itemId e2).1 =
        (svcRemoveBookmark s itemId e1).1) := by
  constructor
  · by_cases hc : itemId ∈ s.localBookmarks
    · simp [svcAddBookmark, h, localAddBookmark, hc]
    · have hc2 : itemId ∈ s.localBookmarks ++ [itemId] := by simp
      simp [svcAddBookmark, h, localAddBookmark, hc, hc2]
  · intro hcount
    by_cases hc : itemId ∈ s.localBookmarks
    · have h1 : 0 < s.localBookmarks.count itemId :=
        List.count_pos_iff.mpr hc
      have h0 : (s.localBookmarks.erase itemId).count itemId = 0 := by
        rw [List.count_erase_self]
        omega
      have hnot : itemId ∉ s.localBookmarks.erase itemId :=
        List.count_eq_zero.mp h0
      simp [svcRemoveBookmark, h, localRemoveBookmark, hc, hnot]
    · simp [svcRemoveBookmark, h, localRemoveBookmark, hc]

/-- A demoted state whose stored bookmark list holds id 5 twice. -/
def dupState : SvcState := { useLocalData := true, localBookmarks := [5, 5] }

/-- C8 counterexample: with the stored list [5, 5], removing id 5 twice in
local mode answers "newly deleted" both times; the second call does not
answer "already deleted" and does change the stored list again. -/
theorem removeBookmark_not_idempotent :
    (svcRemoveBookmark (svcRemoveBookmark dupState 5 (.netErr "")).1 5
        (.netErr "")).2.1 = .ok (some "newly deleted") ∧
    (some "newly deleted" : Option String) ≠ some "already deleted" :=
  ⟨rfl, by decide⟩

theorem bookmarkOps_idempotent_witness :
    (svcAddBookmark (svcAddBookmark demotedState 7 (.netErr "")).1 7
        (.netErr "")).2.1 = .ok (some "already bookmarked") ∧
    (svcRemoveBookmark (svcRemoveBookmark demotedState 7 (.netErr "")).1 7
        (.netErr "")).2.1 = .ok (some "already deleted") :=
  ⟨(bookmarkOps_idempotent demotedState 7 (.netErr "") (.netErr "") rfl).1.1,
    ((bookmarkOps_idempotent demotedState 7 (.netErr "") (.netErr "") rfl).2
      (by decide)).1⟩

/-! ### Claim C9 -/

/-- C9 counterexample: setToken with the empty string stores a token, but
the produced headers carry no Authorization entry (so they do not include
"Bearer " + t for t = ""), because the empty string is falsy in the token
test of getAuthHeaders. -/
theorem emptyToken_no_header :
    ((getAuthHeaders ((setToken {} "").token)).lookup "Authorization" =
      none) ∧
    (none : Option String) ≠ some ("Bearer " ++ "") := ⟨by decide, by decide⟩

/-- C9 (amended): for every nonempty token t, after setToken t the headers
include an Authorization entry "Bearer " ++ t; after clearToken the
headers have no Authorization entry. The empty token is the one exception:
it is stored, but being falsy it produces no Authorization header. -/
theorem token_roundtrip (s : SvcState) (t : String) :
    (t ≠ "" →
      (getAuthHeaders ((setToken s t).token)).lookup "Authorization" =
        some ("Bearer " ++ t)) ∧
    (getAuthHeaders ((clearToken s).token)).lookup "Authorization" = none := by
  constructor
  · intro ht
    simp [setToken, getAuthHeaders, optTruthy, ht, List.lookup]
  · simp [clearToken, getAuthHeaders, optTruthy, List.lookup]

theorem token_roundtrip_witness :
    (getAuthHeaders ((setToken {} "abc").token)).lookup "Authorization" =
      some ("Bearer " ++ "abc") :=
  (token_roundtrip {} "abc").1 (by decide)

/-! ### Claim C10 -/

/-- C10: with no stored token, checkAuth returns user_id null immediately:
no remote request is made, nothing is thrown (the result is ok), and the
whole service state - demotion flag included - is unchanged, in remote and
local mode alike. -/
theorem checkAuth_no_token (s : SvcState) (env : AttemptOutcome)
    (h : s.token = none) :
    svcCheckAuth s env = (s, .ok none, 0) := by
  simp [svcCheckAuth, h, optTruthy]

theorem checkAuth_no_token_witness :
    svcCheckAuth { useLocalData := false } (.netErr "down") =
      ({ useLocalData := false }, .ok none, 0) :=
  checkAuth_no_token { useLocalData := false } (.netErr "down") rfl

/-! ## Pagination Controller: YogaPosesApp
(src/src/services/localData.ts, second variant, lines 462-1009) -/

/-- The pagination-relevant state of `YogaPosesApp`: current page, the
in-flight guard, the has-more flag, the accumulated pose list and the
current filter parameters. Rendering state (filteredPoses, DOM) is owned
by the excluded UI collaborators. -/
structure AppState where
  currentPage : Nat := 1
  isLoading : Bool := false
  hasMoreData : Bool := true
  allPoses : List YogaPose := []
  currentFilters : QueryParams := {}
deriving DecidableEq

/-- Outcome of a page load: the new state, whether the controller called
`apiService.fetchYogaPoses` at all, and with which parameters. -/
structure LoadOutcome where
  state : AppState
  fetched : Bool
  requested : Option QueryParams
deriving DecidableEq

/-- `YogaPosesApp.loadMore` (localData.ts lines 637-666). When a load is in
flight or no more data is flagged, it returns at once: no fetch, nothing
changed. Otherwise it requests the next page with limit 3 and the current
filters; on success it appends the items, adopts the returned
pagination.page and recomputes `hasMoreData` as
`items.length === pagination.limit` FROM THE RESPONSE; on failure it only
shows a message. The in-flight guard is set for the duration of the await
and reset in the finally block, so its net effect is none. `env` is what
the fetch resolves to. -/
def loadMore (s : AppState) (env : Except String ApiResponse) : LoadOutcome :=
  if s.isLoading || !s.hasMoreData then
    { state := s, fetched := false, requested := none }
  else
    let params := { s.currentFilters with
      page := some (s.currentPage + 1), limit := some 3 }
    match env with
    | .ok response =>
      { state := { s with
          allPoses := s.allPoses ++ response.items
          currentPage := response.pagination.page
          hasMoreData :=
            response.items.length == response.pagination.limit
          isLoading := false }
        fetched := true, requested := some params }
    | .error _ =>
      { state := { s with isLoading := false }, fetched := true,
        requested := some params }

/-- `YogaPosesApp.loadInitialData` (localData.ts lines 564-588): always
requests page 1 with limit 3; on success it replaces the accumulated list,
adopts the returned page and recomputes `hasMoreData` as
`items.length === pagination.limit` from the response; on failure it only
shows the error state. -/
def loadInitialData (s : AppState) (env : Except String ApiResponse) :
    LoadOutcome :=
  let params : QueryParams := { page := some 1, limit := some 3 }
  match env with
  | .ok response =>
    { state := { s with
        allPoses := response.items
        currentPage := response.pagination.page
        hasMoreData := response.items.length == response.pagination.limit }
      fetched := true, requested := some params }
  | .error _ => { state := s, fetched := true, requested := some params }

/-! ### Claim C5 -/

/-- A pose for building concrete responses. -/
def poseStub : YogaPose :=
  { id := 9, title := "Stub", description := "", category := "",
    imageUrl := "", videoUrl := "" }

/-- A response whose pagination.limit (5) differs from the requested
limit (3) while carrying exactly 3 items. -/
def limitMismatchResponse : ApiResponse :=
  { items := [poseStub, poseStub, poseStub]
    pagination := { page := 2, limit := 5, total := 9 } }

/-- C5 counterexample: a load-more with requested limit 3 receives 3 items
(so items.length equals the requested limit), yet `hasMore` becomes false,
because the code compares against the RESPONSE pagination.limit (here 5),
not against the requested limit. -/
theorem loadMore_hasMore_not_requested_limit :
    ((loadMore {} (.ok limitMismatchResponse)).requested.map
      (·.limit)) = some (some 3) ∧
    limitMismatchResponse.items.length = 3 ∧
    (loadMore {} (.ok limitMismatchResponse)).state.hasMoreData = false := by
  refine ⟨rfl, rfl, rfl⟩

/-- C5 (amended): after every page load (first page or load-more) the
controller recomputes `hasMore` as `items.length == pagination.limit`
taken from the response - this equals the requested limit L exactly when
the response echoes L back, which the local adapter always does; and
loadMore is a no-op returning immediately with no fetch and no state
change whenever a load is in flight or hasMore is false. -/
theorem loadPage_hasMore (s : AppState) (resp : ApiResponse)
    (env : Except String ApiResponse) :
    ((loadInitialData s (.ok resp)).state.hasMoreData =
      (resp.items.length == resp.pagination.limit)) ∧
    (s.isLoading = false → s.hasMoreData = true →
      (loadMore s (.ok resp)).state.hasMoreData =
        (resp.items.length == resp.pagination.limit) ∧
      (loadMore s (.ok resp)).fetched = true) ∧
    (s.isLoading = true ∨ s.hasMoreData = false →
      loadMore s env = { state := s, fetched := false, requested := none }) := by
  refine ⟨rfl, fun hl hm => ?_, fun hstop => ?_⟩
  · unfold loadMore
    rw [hl, hm]
    exact ⟨rfl, rfl⟩
  · unfold loadMore
    rcases hstop with hl | hm
    · rw [hl]
      rfl
    · rw [hm]
      simp

theorem loadPage_hasMore_witness :
    ((loadMore { isLoading := true } (.error "down")) =
      { state := { isLoading := true }, fetched := false,
        requested := none }) ∧
    (loadMore {} (.ok limitMismatchResponse)).fetched = true :=
  ⟨(loadPage_hasMore { isLoading := true } limitMismatchResponse
      (.error "down")).2.2 (Or.inl rfl),
    ((loadPage_hasMore {} limitMismatchResponse
      (.ok limitMismatchResponse)).2.1 rfl rfl).2⟩
